import Mathlib

/-!
Shallow embedding of `src/app/data_manager.py` (class `GameDataManager`),
the dual-backend persistence layer of the Accounting-Referee repository.

Modelling conventions:
* A Python game dictionary is `Game`; an absent key is `none`
  (`dict.get(k)` yields `None`, `dict.get(k, 0)` yields the default).
* A database row of the `games` table is `Row`; a SQL `NULL` column is
  `none`.  The database state is the list of rows in table order plus
  the next surrogate `id`.
* SQL equality `col = ?` is `sqlStrEq`: a comparison against `NULL`
  is never true, matching SQL three-valued logic.
* The `UNIQUE(season, gameNumber)` constraint raises on inserting a
  duplicate non-NULL key (SQL treats NULLs as distinct), so `dbInsert`
  returns `Except`.
* A driver/backend error on an operation is injected through a
  `fail : Option String` argument: `some msg` means the underlying SQL
  call raises an exception with message `msg`.  Operations return their
  Python result paired with the post-call `Store`; an uncaught Python
  exception is `Except.error`.
* `Store.db_error` is `Option (Option String)`: `none` means the
  `db_error` attribute has never been assigned (reading it raises
  `AttributeError`), `some none` is Python `None`, `some (some m)` is a
  recorded message `m`.
* The per-season JSON files are the association list `jsonFiles`
  (season key → parsed list of records), iterated in directory order;
  `all_games.json` is the `allGames` field; `imported_seasons.json` is
  the `markers` list (a set).
* Monetary amounts are `Rat`; the source uses Python floats but every
  claim is about exact sums of the stored values.
* `LIKE '%q%'` is modelled as case-insensitive substring containment;
  wildcard characters inside the query string are not modelled.
-/

/-- A game record: a Python dictionary with these optional keys
(`data_manager.py` accesses them only through `get`). -/
structure Game where
  season : Option String := none
  gameNumber : Option String := none
  date : Option String := none
  location : Option String := none
  transportation : Option Rat := none
  food : Option Rat := none
  gamePayment : Option Rat := none
  paidStatus : Option String := none
deriving Repr, DecidableEq

/-- A row of the `games` table (schema of `_ensure_schema`). -/
structure Row where
  id : Nat
  season : String
  gameNumber : Option String
  date : Option String
  location : Option String
  transportation : Option Rat
  food : Option Rat
  gamePayment : Option Rat
  paidStatus : Option String
deriving Repr, DecidableEq

/-- The `games` table: rows in table order plus the next autoincrement id. -/
structure DBState where
  rows : List Row
  nextId : Nat
deriving Repr, DecidableEq

/-- The observable state of a `GameDataManager` instance. -/
structure Store where
  conn : Bool
  db : DBState
  jsonFiles : List (String × List Game)
  allGames : List Game
  db_error : Option (Option String)
  markers : List String
deriving Repr, DecidableEq

/-- SQL equality against possibly-NULL text columns: `x = y` is true
only when both sides are non-NULL and equal. -/
def sqlStrEq : Option String → Option String → Bool
  | some a, some b => a == b
  | _, _ => false

/-- Rows of the table belonging to one season
(`SELECT * FROM games WHERE season = ?`). -/
def rowsFor (db : DBState) (season : String) : List Row :=
  db.rows.filter (fun r => r.season == season)

/-- Model of `_row_to_game`: convert a fetched row back to a record dictionary. -/
def row_to_game (r : Row) : Game :=
  { season := some r.season
    gameNumber := r.gameNumber
    date := r.date
    location := r.location
    transportation := r.transportation
    food := r.food
    gamePayment := r.gamePayment
    paidStatus := r.paidStatus }

/-- The row built by the `INSERT` of `add_game`/`_db_save_games`:
monetary fields use `get(k, 0)`, the rest use `get(k)`. -/
def rowOfGame (db : DBState) (season : String) (g : Game) : Row :=
  { id := db.nextId
    season := season
    gameNumber := g.gameNumber
    date := g.date
    location := g.location
    transportation := some (g.transportation.getD 0)
    food := some (g.food.getD 0)
    gamePayment := some (g.gamePayment.getD 0)
    paidStatus := g.paidStatus }

/-- Model of `DELETE FROM games WHERE season=? AND gameNumber=?` (SQL equality,
so rows with NULL `gameNumber` never match). -/
def dbDeleteKey (db : DBState) (season : String) (gn : Option String) : DBState :=
  { db with rows := db.rows.filter (fun r => !(r.season == season && sqlStrEq r.gameNumber gn)) }

/-- Model of `DELETE FROM games WHERE season=?`. -/
def dbDeleteSeason (db : DBState) (season : String) : DBState :=
  { db with rows := db.rows.filter (fun r => !(r.season == season)) }

/-- Model of `INSERT INTO games(...)`: raises on a duplicate non-NULL
`(season, gameNumber)` key because of the UNIQUE constraint. -/
def dbInsert (db : DBState) (season : String) (g : Game) : Except String DBState :=
  if db.rows.any (fun r => r.season == season && sqlStrEq r.gameNumber g.gameNumber) then
    .error "UNIQUE constraint failed: games.season, games.gameNumber"
  else
    .ok { rows := db.rows ++ [rowOfGame db season g], nextId := db.nextId + 1 }

/-- Overwrite a season's JSON file in the data directory (create it when
absent). -/
def setFile : List (String × List Game) → String → List Game → List (String × List Game)
  | [], season, gs => [(season, gs)]
  | (s, old) :: rest, season, gs =>
      if s == season then (s, gs) :: rest else (s, old) :: setFile rest season gs

/-- Model of `_dump_all`: regenerate `all_games.json` from the database when a
connection exists, otherwise by concatenating the season files. -/
def dump_all (st : Store) : Store :=
  if st.conn then { st with allGames := st.db.rows.map row_to_game }
  else { st with allGames := (st.jsonFiles.map Prod.snd).flatten }

/-- Model of `_dump_json`: rewrite one season's JSON backup from the database,
then refresh the aggregate file. -/
def dump_json (st : Store) (season : String) : Store :=
  dump_all { st with jsonFiles := setFile st.jsonFiles season ((rowsFor st.db season).map row_to_game) }

/-- Model of `load_games`: read a season from the database only.  JSON files are
never read; with no connection the method records a diagnostic and
returns the empty list. -/
def load_games (st : Store) (season : String) (fail : Option String) : List Game × Store :=
  if !st.conn then
    ([], { st with db_error := some (some "no database connection") })
  else
    match fail with
    | some msg => ([], { st with db_error := some (some msg) })
    | none => ((rowsFor st.db season).map row_to_game, { st with db_error := some none })

/-- Model of `_db_save_games`: delete the season's rows then bulk-insert, inside
one transaction (rolled back when any statement raises). -/
def db_save_games (st : Store) (season : String) (games : List Game) (fail : Option String) :
    Except String Unit × Store :=
  match fail with
  | some msg => (.error msg, st)
  | none =>
    let db1 := dbDeleteSeason st.db season
    match games.foldlM (fun d g => dbInsert d season g) db1 with
    | .error e => (.error e, st)
    | .ok db2 => (.ok (), { st with db := db2 })

/-- Model of `save_games`: database replace when connected, otherwise overwrite
the season file and refresh the aggregate export. -/
def save_games (st : Store) (season : String) (games : List Game) (fail : Option String) :
    Except String Unit × Store :=
  if st.conn then db_save_games st season games fail
  else (.ok (), dump_all { st with jsonFiles := setFile st.jsonFiles season games })

/-- Model of `add_game`: with a connection, delete any row with the same key
(errors swallowed), insert the new row (errors propagate), then refresh
the JSON backups; without one, load (always `[]`), append, save. -/
def add_game (st : Store) (season : String) (g : Game) (fail : Option String) :
    Except String Unit × Store :=
  if st.conn then
    match fail with
    | some msg => (.error msg, st)
    | none =>
      let st1 := { st with db := dbDeleteKey st.db season g.gameNumber }
      match dbInsert st1.db season g with
      | .error e => (.error e, st1)
      | .ok db2 => (.ok (), dump_json { st1 with db := db2 } season)
  else
    let (games, st1) := load_games st season none
    save_games st1 season (games ++ [g]) fail

/-- Replace the first record whose `gameNumber` matches, as the JSON
branch of `update_game` does (linear scan with `break`). -/
def replaceFirst : List Game → String → Game → List Game
  | [], _, _ => []
  | g :: rest, gn, u =>
      if g.gameNumber == some gn then u :: rest
      else g :: replaceFirst rest gn u

/-- Model of `update_game`: SQL `UPDATE` of the mutable columns of the matching
row when connected; otherwise load (always `[]`), replace, save. -/
def update_game (st : Store) (season game_number : String) (u : Game) (fail : Option String) :
    Except String Unit × Store :=
  if st.conn then
    match fail with
    | some msg => (.error msg, st)
    | none =>
      let rows1 := st.db.rows.map (fun r =>
        if r.season == season && r.gameNumber == some game_number then
          { r with date := u.date
                   location := u.location
                   transportation := some (u.transportation.getD 0)
                   food := some (u.food.getD 0)
                   gamePayment := some (u.gamePayment.getD 0)
                   paidStatus := u.paidStatus }
        else r)
      (.ok (), dump_json { st with db := { st.db with rows := rows1 } } season)
  else
    let (games, st1) := load_games st season none
    save_games st1 season (replaceFirst games game_number u) fail

/-- Model of `delete_game`: SQL `DELETE` of the matching key when connected;
otherwise load (always `[]`), filter, save. -/
def delete_game (st : Store) (season game_number : String) (fail : Option String) :
    Except String Unit × Store :=
  if st.conn then
    match fail with
    | some msg => (.error msg, st)
    | none =>
      (.ok (), dump_json { st with db := dbDeleteKey st.db season (some game_number) } season)
  else
    let (games, st1) := load_games st season none
    save_games st1 season (games.filter (fun g => !(g.gameNumber == some game_number))) fail

/-- Bool test that the character list `n` occurs as a prefix of `h`. -/
def prefAt : List Char → List Char → Bool
  | [], _ => true
  | _ :: _, [] => false
  | a :: as, b :: bs => a == b && prefAt as bs

/-- Bool test that `n` occurs somewhere inside `h`. -/
def infAt (n : List Char) : List Char → Bool
  | [] => n.isEmpty
  | b :: bs => prefAt n (b :: bs) || infAt n bs

/-- SQL `col LIKE '%q%'` on a possibly-NULL text column: NULL never
matches; otherwise case-insensitive containment (SQLite default). -/
def likeMatch (field : Option String) (q : String) : Bool :=
  match field with
  | none => false
  | some s => infAt q.toLower.toList s.toLower.toList

/-- The JSON-branch match predicate of `search_games` (only ever applied
to the empty list returned by `load_games`). -/
def gameMatches (g : Game) (q : String) : Bool :=
  infAt q.toLower.toList (g.gameNumber.getD "").toLower.toList ||
  infAt q.toLower.toList (g.location.getD "").toLower.toList ||
  infAt q.toLower.toList (g.date.getD "").toLower.toList

/-- Model of `search_games`: SQL query with no surrounding try/except — a
database error propagates to the caller. -/
def search_games (st : Store) (season q : String) (fail : Option String) :
    Except String (List Game) × Store :=
  if st.conn then
    match fail with
    | some msg => (.error msg, st)
    | none =>
      let rows := (rowsFor st.db season).filter (fun r =>
        likeMatch r.gameNumber q || likeMatch r.location q || likeMatch r.date q)
      (.ok (rows.map row_to_game), st)
  else
    let (games, st1) := load_games st season none
    (.ok (games.filter (fun g => gameMatches g q)), st1)

/-- Result of `get_summary`. -/
structure Summary where
  total_earnings : Rat
  amount_left : Rat
  games_count : Nat
deriving Repr, DecidableEq

/-- Per-row total `float(trans or 0) + float(food or 0) + float(pay or 0)`. -/
def rowTotal (r : Row) : Rat :=
  r.transportation.getD 0 + r.food.getD 0 + r.gamePayment.getD 0

/-- The paid test `(paid or "").lower() == 'yes'`. -/
def rowPaid (r : Row) : Bool :=
  (r.paidStatus.getD "").toLower == "yes"

/-- Model of `get_summary`: accumulate the season's totals into paid / still due
buckets; without a connection or on a query error, record a diagnostic
and return the all-zero summary. -/
def get_summary (st : Store) (season : String) (fail : Option String) : Summary × Store :=
  if !st.conn then
    ({ total_earnings := 0, amount_left := 0, games_count := 0 },
     { st with db_error := some (some "no database connection") })
  else
    match fail with
    | some msg =>
      ({ total_earnings := 0, amount_left := 0, games_count := 0 },
       { st with db_error := some (some msg) })
    | none =>
      let rows := rowsFor st.db season
      let acc := rows.foldl
        (fun (a : Rat × Rat) r =>
          if rowPaid r then (a.1 + rowTotal r, a.2) else (a.1, a.2 + rowTotal r))
        (0, 0)
      ({ total_earnings := acc.1, amount_left := acc.2, games_count := rows.length },
       { st with db_error := some none })

/-- The deduplication key of `_dedupe_db` (a Python tuple, so NULL
columns compare equal, unlike SQL). -/
def rowKey (r : Row) : String × Option String := (r.season, r.gameNumber)

/-- Scan of `_dedupe_db`: keep a row when its key has not been seen,
delete every later row with an already-seen key. -/
def dedupeGo : List Row → List (String × Option String) → List Row
  | [], _ => []
  | r :: rest, seen =>
      if rowKey r ∈ seen then dedupeGo rest seen
      else r :: dedupeGo rest (rowKey r :: seen)

/-- Model of `_dedupe_db`: no-op without a connection. -/
def dedupe_db (st : Store) : Store :=
  if !st.conn then st
  else { st with db := { st.db with rows := dedupeGo st.db.rows [] } }

/-- Add a season to the imported-seasons marker set. -/
def insertMarker (season : String) (markers : List String) : List String :=
  if season ∈ markers then markers else markers ++ [season]

/-- Model of `len(rowsFor season)`: the `SELECT COUNT(*)` of the marker check. -/
def seasonCount (db : DBState) (season : String) : Nat :=
  (rowsFor db season).length

/-- Record a season in the marker set (`markers.add(season)` followed by
`_write_markers`). -/
def markSeason (season : String) (σ : Store) : Store :=
  { σ with markers := insertMarker season σ.markers }

/-- The migration body for one season file: clear the season's existing
rows, insert every record of the file through `add_game` (insert errors
logged and skipped), then mark the season imported. -/
def importSeasonFile (σ : Store) (season : String) : Store :=
  markSeason season
    (((σ.jsonFiles.lookup season).getD []).foldl
      (fun s g => (add_game s season g none).2)
      { σ with db := dbDeleteSeason σ.db season })

/-- One iteration of the file loop of `import_json_to_db`: skip a marked
season that still has rows (or any marked season without a connection);
otherwise run the migration body. -/
def processSeason (st : Store) (season : String) : Store :=
  if st.markers.contains season && (!st.conn || decide (0 < seasonCount st.db season)) then st
  else importSeasonFile st season

/-- Model of `import_json_to_db`: process every season file in directory order,
then regenerate the aggregate export. -/
def import_json_to_db (st : Store) : Store :=
  let seasons := st.jsonFiles.map Prod.fst
  dump_all (seasons.foldl processSeason st)

/-- The success path of `GameDataManager.__init__`: schema creation,
one-time JSON import, defensive deduplication, aggregate export — none
of which assigns `db_error` when nothing raises. -/
def mkStore (conn : Bool) (db0 : DBState) (files : List (String × List Game))
    (markers0 : List String) : Store :=
  let st0 : Store :=
    { conn := conn, db := db0, jsonFiles := files, allGames := [],
      db_error := none, markers := markers0 }
  let st1 := if conn then import_json_to_db st0 else st0
  let st2 := if conn then dedupe_db st1 else st1
  dump_all st2

/-- Key of a row as the uniqueness invariant sees it. -/
def keysUnique (rows : List Row) : Prop := (rows.map rowKey).Nodup

/-- The database state produced by a successful connected `add_game`:
rows with the same key deleted, the new row appended. -/
def dbAdd (db : DBState) (season : String) (g : Game) : DBState :=
  { rows := (dbDeleteKey db season g.gameNumber).rows ++ [rowOfGame db season g]
    nextId := db.nextId + 1 }

/-- The record of the specification's JSON-mode scenario. -/
def sampleGame : Game :=
  { gameNumber := some "1"
    date := some "2025-09-01"
    location := some "Field A"
    transportation := some 10
    food := some 5
    gamePayment := some 50
    paidStatus := some "No" }

/-- A store over an empty JSON data directory with no connection. -/
def emptyJsonStore : Store :=
  { conn := false
    db := { rows := [], nextId := 1 }
    jsonFiles := []
    allGames := []
    db_error := none
    markers := [] }

/-- A JSON-only store whose season file already holds one record. -/
def jsonStoreWithGame : Store :=
  { conn := false
    db := { rows := [], nextId := 1 }
    jsonFiles := [("2025/2026", [sampleGame])]
    allGames := [sampleGame]
    db_error := none
    markers := [] }

/-- A connected store over an empty database. -/
def emptyDbStore : Store :=
  { conn := true
    db := { rows := [], nextId := 1 }
    jsonFiles := []
    allGames := []
    db_error := none
    markers := [] }

/-- A sample populated database row. -/
def sampleRow : Row :=
  { id := 1
    season := "2025/2026"
    gameNumber := some "1"
    date := some "2025-09-01"
    location := some "Field A"
    transportation := some 10
    food := some 5
    gamePayment := some 50
    paidStatus := some "yes" }

/-- A connected store holding one row and a stale recorded error. -/
def dbStoreStale : Store :=
  { conn := true
    db := { rows := [sampleRow], nextId := 2 }
    jsonFiles := [("2025/2026", [row_to_game sampleRow])]
    allGames := [row_to_game sampleRow]
    db_error := some (some "old failure")
    markers := ["2025/2026"] }

/-- Invariant of a season after a migration pass: the season is marked,
and if its table rows are empty then its JSON file holds `[]` (so a
repeated pass re-imports nothing). -/
def seasonImported (s : String) (σ : Store) : Prop :=
  s ∈ σ.markers ∧ (rowsFor σ.db s = [] → σ.jsonFiles.lookup s = some [])

/-- A connected store over an empty table whose only season is already
marked imported but has a non-empty JSON file (e.g. after switching
database backends). -/
def markedEmptyStore : Store :=
  { conn := true
    db := { rows := [], nextId := 1 }
    jsonFiles := [("2025/2026", [sampleGame])]
    allGames := []
    db_error := none
    markers := ["2025/2026"] }

theorem setFile_lookup_self (files : List (String × List Game)) (s : String)
    (gs : List Game) : (setFile files s gs).lookup s = some gs := by
  induction files with
  | nil => simp [setFile, List.lookup]
  | cons p rest ih =>
    obtain ⟨a, b⟩ := p
    by_cases h : a = s
    · subst h
      simp [setFile, List.lookup]
    · have hb : (a == s) = false := by simp [h]
      have hb2 : (s == a) = false := by simp [Ne.symm h]
      simp [setFile, hb, List.lookup, hb2, ih]

theorem setFile_lookup_ne (files : List (String × List Game)) (s s' : String)
    (gs : List Game) (h : s' ≠ s) :
    (setFile files s gs).lookup s' = files.lookup s' := by
  have hb0 : (s' == s) = false := by simp [h]
  induction files with
  | nil => simp [setFile, List.lookup, hb0]
  | cons p rest ih =>
    obtain ⟨a, b⟩ := p
    by_cases ha : a = s
    · subst ha
      have hb : (s' == a) = false := by simp [h]
      simp [setFile, List.lookup, hb]
    · have hb : (a == s) = false := by simp [ha]
      simp [setFile, hb, List.lookup, ih]

/-- Claim C2, counterexample: with no database connection and a season
file that does exist and holds one record, `load_games` still returns
`[]`, not the file's records (the method never reads JSON files). -/
theorem C2_cex :
    jsonStoreWithGame.jsonFiles.lookup "2025/2026" = some [sampleGame] ∧
    (load_games jsonStoreWithGame "2025/2026" none).1 ≠ [sampleGame] := by
  constructor
  · rfl
  · decide

/-- Claim C2, amended: with a connection, `load_games` returns every
stored record of the season; in JSON-only mode it always returns `[]`
and records the diagnostic, whether or not a season file exists. -/
theorem C2_amended (st : Store) (season : String) :
    (st.conn = true →
      (load_games st season none).1 = (rowsFor st.db season).map row_to_game) ∧
    (st.conn = false →
      (load_games st season none).1 = [] ∧
      (load_games st season none).2.db_error = some (some "no database connection")) := by
  constructor
  · intro h
    simp [load_games, h]
  · intro h
    simp [load_games, h]

/-- Witness for `C2_amended` at a concrete connected store and a
concrete JSON-only store. -/
theorem C2_amended_witness :
    ((load_games dbStoreStale "2025/2026" none).1
        = (rowsFor dbStoreStale.db "2025/2026").map row_to_game) ∧
    ((load_games jsonStoreWithGame "2025/2026" none).1 = [] ∧
      (load_games jsonStoreWithGame "2025/2026" none).2.db_error
        = some (some "no database connection")) :=
  ⟨(C2_amended dbStoreStale "2025/2026").1 rfl,
   (C2_amended jsonStoreWithGame "2025/2026").2 rfl⟩

/-- Claim C3, counterexample: in the spec's JSON-only scenario the
summary after the add is the all-zero one, not
`{total_earnings := 0, amount_left := 65, games_count := 1}`, because
`get_summary` reads only the database. -/
theorem C3_cex :
    (get_summary (add_game emptyJsonStore "2025/2026" sampleGame none).2
        "2025/2026" none).1 ≠
      { total_earnings := 0, amount_left := 65, games_count := 1 } := by
  decide

/-- Claim C3, amended: starting from an empty JSON directory with no
connection, `load_games` returns `[]` and, after the add, `get_summary`
returns the all-zero summary with the no-connection diagnostic
recorded (summaries are computed only from the database). -/
theorem C3_amended :
    (load_games emptyJsonStore "2025/2026" none).1 = [] ∧
    (add_game emptyJsonStore "2025/2026" sampleGame none).1 = .ok () ∧
    (add_game emptyJsonStore "2025/2026" sampleGame none).2.jsonFiles.lookup "2025/2026"
      = some [sampleGame] ∧
    (get_summary (add_game emptyJsonStore "2025/2026" sampleGame none).2
        "2025/2026" none).1
      = { total_earnings := 0, amount_left := 0, games_count := 0 } ∧
    (get_summary (add_game emptyJsonStore "2025/2026" sampleGame none).2
        "2025/2026" none).2.db_error = some (some "no database connection") := by
  refine ⟨rfl, rfl, rfl, ?_, rfl⟩
  decide

/-- Claim C10: in JSON-only mode `add_game` overwrites the season file
with the one-element list holding just the record being added, because
`load_games` returned `[]` without reading the file; every previously
saved record of that season is discarded. -/
theorem C10_json_add_overwrites (st : Store) (season : String) (g : Game)
    (h : st.conn = false) :
    (add_game st season g none).1 = .ok () ∧
    (add_game st season g none).2.jsonFiles.lookup season = some [g] := by
  have hload : load_games st season none
      = ([], { st with db_error := some (some "no database connection") }) := by
    simp [load_games, h]
  constructor
  · simp [add_game, h, hload, save_games, dump_all]
  · simp [add_game, h, hload, save_games, dump_all, setFile_lookup_self]

/-- Witness for `C10_json_add_overwrites`: the season file that held a
record before the add holds exactly the new record afterwards. -/
theorem C10_witness :
    (add_game jsonStoreWithGame "2025/2026" { sampleGame with gameNumber := some "9" } none).1
        = .ok () ∧
    (add_game jsonStoreWithGame "2025/2026" { sampleGame with gameNumber := some "9" } none).2.jsonFiles.lookup "2025/2026"
        = some [{ sampleGame with gameNumber := some "9" }] :=
  C10_json_add_overwrites jsonStoreWithGame "2025/2026"
    { sampleGame with gameNumber := some "9" } rfl

theorem summary_foldl_split (rows : List Row) (a b : Rat) :
    rows.foldl
        (fun (p : Rat × Rat) r =>
          if rowPaid r then (p.1 + rowTotal r, p.2) else (p.1, p.2 + rowTotal r))
        (a, b)
      = (a + ((rows.filter (fun r => rowPaid r)).map rowTotal).sum,
         b + ((rows.filter (fun r => !rowPaid r)).map rowTotal).sum) := by
  induction rows generalizing a b with
  | nil => simp
  | cons r rs ih =>
    by_cases h : rowPaid r
    · simp only [List.foldl_cons, h, if_pos, List.filter_cons]
      rw [ih]
      simp [h]
      ring
    · simp only [List.foldl_cons, h, List.filter_cons]
      rw [if_neg (by simp [h]), ih]
      simp [h]
      ring

theorem summary_sum_split (rows : List Row) :
    ((rows.filter (fun r => rowPaid r)).map rowTotal).sum
      + ((rows.filter (fun r => !rowPaid r)).map rowTotal).sum
      = (rows.map rowTotal).sum := by
  induction rows with
  | nil => simp
  | cons r rs ih =>
    by_cases h : rowPaid r
    · simp [List.filter_cons, h, ← ih]
      ring
    · simp [List.filter_cons, h, ← ih]
      ring

/-- Claim C4: on a successful query, `get_summary` splits the sum of
per-row totals (missing/NULL amounts counting as zero by `rowTotal`)
into rows whose `paidStatus` case-insensitively equals "yes" and all
other rows; the two buckets add up to the total sum, and `games_count`
is the number of rows. -/
theorem C4_summary_split (st : Store) (season : String) (h : st.conn = true) :
    (get_summary st season none).1.total_earnings
        = (((rowsFor st.db season).filter (fun r => rowPaid r)).map rowTotal).sum ∧
    (get_summary st season none).1.amount_left
        = (((rowsFor st.db season).filter (fun r => !rowPaid r)).map rowTotal).sum ∧
    (get_summary st season none).1.games_count = (rowsFor st.db season).length ∧
    (get_summary st season none).1.total_earnings
        + (get_summary st season none).1.amount_left
        = ((rowsFor st.db season).map rowTotal).sum := by
  have hfold : (rowsFor st.db season).foldl
      (fun (p : Rat × Rat) r =>
        if rowPaid r then (p.1 + rowTotal r, p.2) else (p.1, p.2 + rowTotal r)) 0
      = ((((rowsFor st.db season).filter (fun r => rowPaid r)).map rowTotal).sum,
         (((rowsFor st.db season).filter (fun r => !rowPaid r)).map rowTotal).sum) := by
    simpa using summary_foldl_split (rowsFor st.db season) 0 0
  refine ⟨?_, ?_, ?_, ?_⟩ <;>
    simp [get_summary, h, hfold, summary_sum_split]

/-- Witness for `C4_summary_split` on a concrete one-row store. -/
theorem C4_witness :
    (get_summary dbStoreStale "2025/2026" none).1.total_earnings
        = (((rowsFor dbStoreStale.db "2025/2026").filter (fun r => rowPaid r)).map rowTotal).sum ∧
    (get_summary dbStoreStale "2025/2026" none).1.amount_left
        = (((rowsFor dbStoreStale.db "2025/2026").filter (fun r => !rowPaid r)).map rowTotal).sum ∧
    (get_summary dbStoreStale "2025/2026" none).1.games_count
        = (rowsFor dbStoreStale.db "2025/2026").length ∧
    (get_summary dbStoreStale "2025/2026" none).1.total_earnings
        + (get_summary dbStoreStale "2025/2026" none).1.amount_left
        = ((rowsFor dbStoreStale.db "2025/2026").map rowTotal).sum :=
  C4_summary_split dbStoreStale "2025/2026" rfl

theorem sqlStrEq_some (x : Option String) (n : String) :
    sqlStrEq x (some n) = (x == some n) := by
  cases x <;> simp [sqlStrEq]

theorem dbDeleteKey_no_match (db : DBState) (season gn : String)
    (h : ∀ r ∈ db.rows, ¬(r.season = season ∧ r.gameNumber = some gn)) :
    dbDeleteKey db season (some gn) = db := by
  have hrows : db.rows.filter
      (fun r => !(r.season == season && sqlStrEq r.gameNumber (some gn))) = db.rows := by
    apply List.filter_eq_self.mpr
    intro r hr
    have := h r hr
    simp only [sqlStrEq_some, Bool.not_eq_eq_eq_not, Bool.not_true, Bool.and_eq_false_imp]
    simp only [beq_iff_eq]
    intro hs
    have hne : r.gameNumber ≠ some gn := fun hgn => this ⟨hs, hgn⟩
    simpa using hne
  unfold dbDeleteKey
  rw [hrows]

/-- Claim C6, counterexample: in JSON-only mode, deleting a key that is
absent from the season file still overwrites the file with `[]`,
destroying the record that was stored there — the per-season record
state is not left unchanged. -/
theorem C6_cex :
    sampleGame.gameNumber = some "1" ∧
    jsonStoreWithGame.jsonFiles.lookup "2025/2026" = some [sampleGame] ∧
    (delete_game jsonStoreWithGame "2025/2026" "2" none).2.jsonFiles.lookup "2025/2026"
      = some [] ∧
    (some ([] : List Game)) ≠ some [sampleGame] := by
  refine ⟨rfl, rfl, ?_, by decide⟩
  decide

/-- Claim C6, amended: `delete_game` raises nothing in either backend;
with a database connection and no matching row it leaves the table's
rows unchanged, while in JSON-only mode it overwrites the season file
with `[]` (load-filter-save over the `[]` that `load_games` returns),
discarding any previously stored records. -/
theorem C6_amended (st : Store) (season gn : String) :
    (st.conn = true →
      (∀ r ∈ st.db.rows, ¬(r.season = season ∧ r.gameNumber = some gn)) →
      (delete_game st season gn none).1 = .ok () ∧
      (delete_game st season gn none).2.db.rows = st.db.rows) ∧
    (st.conn = false →
      (delete_game st season gn none).1 = .ok () ∧
      (delete_game st season gn none).2.jsonFiles.lookup season = some []) := by
  constructor
  · intro h hnone
    have hdel := dbDeleteKey_no_match st.db season gn hnone
    constructor
    · simp [delete_game, h]
    · simp [delete_game, h, hdel, dump_json, dump_all]
  · intro h
    have hload : load_games st season none
        = ([], { st with db_error := some (some "no database connection") }) := by
      simp [load_games, h]
    constructor
    · simp [delete_game, h, hload, save_games, dump_all]
    · simp [delete_game, h, hload, save_games, dump_all, setFile_lookup_self]

/-- Witness for `C6_amended`: a connected store whose only row has game
number "1" is unchanged by deleting "7", and a JSON-only store ends
with an empty season file. -/
theorem C6_witness :
    ((delete_game dbStoreStale "2025/2026" "7" none).1 = .ok () ∧
      (delete_game dbStoreStale "2025/2026" "7" none).2.db.rows = dbStoreStale.db.rows) ∧
    ((delete_game jsonStoreWithGame "2025/2026" "7" none).1 = .ok () ∧
      (delete_game jsonStoreWithGame "2025/2026" "7" none).2.jsonFiles.lookup "2025/2026"
        = some []) :=
  ⟨(C6_amended dbStoreStale "2025/2026" "7").1 rfl (by decide),
   (C6_amended jsonStoreWithGame "2025/2026" "7").2 rfl⟩

/-- Claim C7, counterexample: a database error during `search_games` is
not caught — the exception propagates to the caller (there is no
try/except around the query in the source). -/
theorem C7_cex :
    dbStoreStale.conn = true ∧
    (search_games dbStoreStale "2025/2026" "a" (some "boom")).1
      = Except.error "boom" := by
  exact ⟨rfl, rfl⟩

/-- Claim C7, amended: `load_games` and `get_summary` catch database
errors, record the diagnostic and return an empty result, but
`search_games` propagates the error to the caller. -/
theorem C7_amended (st : Store) (season q msg : String) (h : st.conn = true) :
    (load_games st season (some msg)).1 = [] ∧
    (load_games st season (some msg)).2.db_error = some (some msg) ∧
    (get_summary st season (some msg)).1
      = { total_earnings := 0, amount_left := 0, games_count := 0 } ∧
    (get_summary st season (some msg)).2.db_error = some (some msg) ∧
    (search_games st season q (some msg)).1 = Except.error msg := by
  refine ⟨?_, ?_, ?_, ?_, ?_⟩ <;>
    simp [load_games, get_summary, search_games, h]

/-- Witness for `C7_amended` at a concrete connected store. -/
theorem C7_witness :
    (load_games dbStoreStale "2025/2026" (some "boom")).1 = [] ∧
    (load_games dbStoreStale "2025/2026" (some "boom")).2.db_error = some (some "boom") ∧
    (get_summary dbStoreStale "2025/2026" (some "boom")).1
      = { total_earnings := 0, amount_left := 0, games_count := 0 } ∧
    (get_summary dbStoreStale "2025/2026" (some "boom")).2.db_error = some (some "boom") ∧
    (search_games dbStoreStale "2025/2026" "a" (some "boom")).1 = Except.error "boom" :=
  C7_amended dbStoreStale "2025/2026" "a" "boom" rfl

theorem dump_all_conn (st : Store) : (dump_all st).conn = st.conn := by
  unfold dump_all
  split <;> rfl

theorem dump_all_db (st : Store) : (dump_all st).db = st.db := by
  unfold dump_all
  split <;> rfl

theorem dump_all_jsonFiles (st : Store) : (dump_all st).jsonFiles = st.jsonFiles := by
  unfold dump_all
  split <;> rfl

theorem dump_all_db_error (st : Store) : (dump_all st).db_error = st.db_error := by
  unfold dump_all
  split <;> rfl

theorem dump_all_markers (st : Store) : (dump_all st).markers = st.markers := by
  unfold dump_all
  split <;> rfl

theorem dump_json_conn (st : Store) (season : String) :
    (dump_json st season).conn = st.conn := by
  unfold dump_json
  rw [dump_all_conn]

theorem dump_json_db (st : Store) (season : String) :
    (dump_json st season).db = st.db := by
  unfold dump_json
  rw [dump_all_db]

theorem dump_json_db_error (st : Store) (season : String) :
    (dump_json st season).db_error = st.db_error := by
  unfold dump_json
  rw [dump_all_db_error]

theorem dump_json_markers (st : Store) (season : String) :
    (dump_json st season).markers = st.markers := by
  unfold dump_json
  rw [dump_all_markers]

theorem dump_json_jsonFiles (st : Store) (season : String) :
    (dump_json st season).jsonFiles
      = setFile st.jsonFiles season ((rowsFor st.db season).map row_to_game) := by
  unfold dump_json
  rw [dump_all_jsonFiles]

theorem dbInsert_after_delete (db : DBState) (season : String) (g : Game) :
    dbInsert (dbDeleteKey db season g.gameNumber) season g = .ok (dbAdd db season g) := by
  unfold dbInsert
  rw [if_neg]
  · rfl
  · intro hany
    obtain ⟨r, hr, hp⟩ := List.any_eq_true.mp hany
    have hmem := List.mem_filter.mp hr
    rw [hp] at hmem
    simp at hmem

/-- A connected `add_game` with a healthy driver always succeeds:
delete the key, append the fresh row, refresh the backups. -/
theorem add_game_db_spec (st : Store) (season : String) (g : Game) (h : st.conn = true) :
    add_game st season g none
      = (.ok (), dump_json { st with db := dbAdd st.db season g } season) := by
  unfold add_game
  rw [if_pos h]
  have : dbInsert (dbDeleteKey st.db season g.gameNumber) season g
      = .ok (dbAdd st.db season g) := dbInsert_after_delete st.db season g
  simp only [this]

theorem add_game_conn (st : Store) (season : String) (g : Game) (fail : Option String) :
    ((add_game st season g fail).2).conn = st.conn := by
  cases hc : st.conn with
  | false =>
    have hload : load_games st season none
        = ([], { st with db_error := some (some "no database connection") }) := by
      simp [load_games, hc]
    simp [add_game, hc, hload, save_games, dump_all]
  | true =>
    cases fail with
    | some msg => simp [add_game, hc]
    | none =>
      rw [add_game_db_spec st season g hc, dump_json_conn]
      exact hc

theorem add_game_markers (st : Store) (season : String) (g : Game) (fail : Option String) :
    ((add_game st season g fail).2).markers = st.markers := by
  cases hc : st.conn with
  | false =>
    have hload : load_games st season none
        = ([], { st with db_error := some (some "no database connection") }) := by
      simp [load_games, hc]
    simp [add_game, hc, hload, save_games, dump_all]
  | true =>
    cases fail with
    | some msg => simp [add_game, hc]
    | none => rw [add_game_db_spec st season g hc, dump_json_markers]

theorem add_game_db_error (st : Store) (season : String) (g : Game) (fail : Option String)
    (h : st.conn = true) : ((add_game st season g fail).2).db_error = st.db_error := by
  cases fail with
  | some msg => simp [add_game, h]
  | none => rw [add_game_db_spec st season g h, dump_json_db_error]

theorem update_game_db_error (st : Store) (season gn : String) (u : Game)
    (fail : Option String) (h : st.conn = true) :
    ((update_game st season gn u fail).2).db_error = st.db_error := by
  cases fail with
  | some msg => simp [update_game, h]
  | none => simp [update_game, h, dump_json_db_error]

theorem delete_game_db_error (st : Store) (season gn : String) (fail : Option String)
    (h : st.conn = true) :
    ((delete_game st season gn fail).2).db_error = st.db_error := by
  cases fail with
  | some msg => simp [delete_game, h]
  | none => simp [delete_game, h, dump_json_db_error]

theorem save_games_db_error (st : Store) (season : String) (gs : List Game)
    (fail : Option String) (h : st.conn = true) :
    ((save_games st season gs fail).2).db_error = st.db_error := by
  rw [save_games, if_pos h]
  cases fail with
  | some msg => rfl
  | none =>
    simp only [db_save_games]
    cases h2 : List.foldlM (fun d g => dbInsert d season g) (dbDeleteSeason st.db season) gs <;>
      simp [h2]

theorem search_games_db_error (st : Store) (season q : String) (fail : Option String)
    (h : st.conn = true) :
    ((search_games st season q fail).2).db_error = st.db_error := by
  cases fail with
  | some msg => simp [search_games, h]
  | none => simp [search_games, h]

/-- Claim C8, counterexample: a successful `add_game` on a connected
store leaves a stale recorded error in place — the write operations
never assign `db_error`, so it is not null after every successful
database operation. -/
theorem C8_cex :
    dbStoreStale.conn = true ∧
    dbStoreStale.db_error = some (some "old failure") ∧
    (add_game dbStoreStale "2025/2026" { sampleGame with gameNumber := some "2" } none).1
      = .ok () ∧
    (add_game dbStoreStale "2025/2026" { sampleGame with gameNumber := some "2" } none).2.db_error
      = some (some "old failure") ∧
    (some (some "old failure") : Option (Option String)) ≠ some none := by
  refine ⟨by rfl, by rfl, ?_, ?_, by decide⟩
  · rw [add_game_db_spec dbStoreStale "2025/2026"
      { sampleGame with gameNumber := some "2" } rfl]
  · rw [add_game_db_error dbStoreStale "2025/2026"
      { sampleGame with gameNumber := some "2" } none rfl]
    rfl

/-- Claim C8, amended: only `load_games` and `get_summary` manage the
diagnostic — they set `db_error` to null on success and to the error
message on failure; `add_game`, `update_game`, `delete_game`,
`save_games` and `search_games` leave `db_error` untouched whether they
succeed or raise. -/
theorem C8_amended (st : Store) (season gn q msg : String) (g u : Game)
    (gs : List Game) (fail : Option String) (h : st.conn = true) :
    (load_games st season none).2.db_error = some none ∧
    (get_summary st season none).2.db_error = some none ∧
    (load_games st season (some msg)).2.db_error = some (some msg) ∧
    (get_summary st season (some msg)).2.db_error = some (some msg) ∧
    (add_game st season g fail).2.db_error = st.db_error ∧
    (update_game st season gn u fail).2.db_error = st.db_error ∧
    (delete_game st season gn fail).2.db_error = st.db_error ∧
    (save_games st season gs fail).2.db_error = st.db_error ∧
    (search_games st season q fail).2.db_error = st.db_error := by
  refine ⟨?_, ?_, ?_, ?_,
    add_game_db_error st season g fail h,
    update_game_db_error st season gn u fail h,
    delete_game_db_error st season gn fail h,
    save_games_db_error st season gs fail h,
    search_games_db_error st season q fail h⟩ <;>
  simp [load_games, get_summary, h]

/-- Witness for `C8_amended` at a concrete connected store. -/
theorem C8_witness :
    (load_games dbStoreStale "2025/2026" none).2.db_error = some none ∧
    (get_summary dbStoreStale "2025/2026" none).2.db_error = some none ∧
    (load_games dbStoreStale "2025/2026" (some "boom")).2.db_error = some (some "boom") ∧
    (get_summary dbStoreStale "2025/2026" (some "boom")).2.db_error = some (some "boom") ∧
    (add_game dbStoreStale "2025/2026" sampleGame none).2.db_error = dbStoreStale.db_error ∧
    (update_game dbStoreStale "2025/2026" "1" sampleGame none).2.db_error
      = dbStoreStale.db_error ∧
    (delete_game dbStoreStale "2025/2026" "1" none).2.db_error = dbStoreStale.db_error ∧
    (save_games dbStoreStale "2025/2026" [sampleGame] none).2.db_error
      = dbStoreStale.db_error ∧
    (search_games dbStoreStale "2025/2026" "a" none).2.db_error = dbStoreStale.db_error :=
  C8_amended dbStoreStale "2025/2026" "1" "a" "boom" sampleGame sampleGame [sampleGame]
    none rfl

theorem foldl_addStep_conn (season : String) (games : List Game) (σ : Store) :
    (games.foldl (fun s g => (add_game s season g none).2) σ).conn = σ.conn := by
  induction games generalizing σ with
  | nil => rfl
  | cons g gs ih => rw [List.foldl_cons, ih, add_game_conn]

theorem foldl_addStep_db_error (season : String) (games : List Game) (σ : Store)
    (h : σ.conn = true) :
    (games.foldl (fun s g => (add_game s season g none).2) σ).db_error = σ.db_error := by
  induction games generalizing σ with
  | nil => rfl
  | cons g gs ih =>
    rw [List.foldl_cons, ih _ (by rw [add_game_conn]; exact h),
      add_game_db_error _ _ _ _ h]

theorem foldl_addStep_markers (season : String) (games : List Game) (σ : Store) :
    (games.foldl (fun s g => (add_game s season g none).2) σ).markers = σ.markers := by
  induction games generalizing σ with
  | nil => rfl
  | cons g gs ih => rw [List.foldl_cons, ih, add_game_markers]

theorem processSeason_conn (st : Store) (season : String) :
    (processSeason st season).conn = st.conn := by
  unfold processSeason
  split
  · rfl
  · exact foldl_addStep_conn season _ _

theorem processSeason_db_error (st : Store) (season : String) (h : st.conn = true) :
    (processSeason st season).db_error = st.db_error := by
  unfold processSeason
  split
  · rfl
  · exact foldl_addStep_db_error season _ _ h

theorem foldl_processSeason_conn (seasons : List String) (σ : Store) :
    (seasons.foldl processSeason σ).conn = σ.conn := by
  induction seasons generalizing σ with
  | nil => rfl
  | cons s rest ih => rw [List.foldl_cons, ih, processSeason_conn]

theorem foldl_processSeason_db_error (seasons : List String) (σ : Store)
    (h : σ.conn = true) :
    (seasons.foldl processSeason σ).db_error = σ.db_error := by
  induction seasons generalizing σ with
  | nil => rfl
  | cons s rest ih =>
    rw [List.foldl_cons, ih _ (by rw [processSeason_conn]; exact h),
      processSeason_db_error _ _ h]

theorem import_conn (st : Store) : (import_json_to_db st).conn = st.conn := by
  unfold import_json_to_db
  rw [dump_all_conn, foldl_processSeason_conn]

theorem import_db_error (st : Store) (h : st.conn = true) :
    (import_json_to_db st).db_error = st.db_error := by
  unfold import_json_to_db
  rw [dump_all_db_error, foldl_processSeason_db_error _ _ h]

theorem dedupe_db_conn (st : Store) : (dedupe_db st).conn = st.conn := by
  unfold dedupe_db
  split <;> rfl

theorem dedupe_db_db_error (st : Store) : (dedupe_db st).db_error = st.db_error := by
  unfold dedupe_db
  split <;> rfl

/-- Claim C9: the constructor's success path (schema ensured, migration
and deduplication run without raising) never assigns the `db_error`
attribute, so it is still unset — reading the diagnostic before the
first failure or the first `load_games`/`get_summary` call raises
`AttributeError` instead of yielding null. -/
theorem C9_init_no_db_error (db0 : DBState) (files : List (String × List Game))
    (markers0 : List String) :
    (mkStore true db0 files markers0).db_error = none := by
  unfold mkStore
  simp only [if_true]
  rw [dump_all_db_error, dedupe_db_db_error, import_db_error]
  rfl

theorem add_game_filter_key (st : Store) (season : String) (g : Game) (n : String)
    (hc : st.conn = true) (hg : g.gameNumber = some n) :
    ((add_game st season g none).2.db.rows.filter
        (fun r => r.season == season && r.gameNumber == some n))
      = [rowOfGame st.db season g] := by
  rw [add_game_db_spec st season g hc, dump_json_db]
  show ((dbAdd st.db season g).rows.filter _) = _
  unfold dbAdd
  rw [List.filter_append]
  have h1 : (dbDeleteKey st.db season g.gameNumber).rows.filter
      (fun r => r.season == season && r.gameNumber == some n) = [] := by
    apply List.filter_eq_nil_iff.mpr
    intro r hr
    have hmem := List.mem_filter.mp hr
    have hnp := hmem.2
    rw [hg] at hnp
    rw [sqlStrEq_some] at hnp
    simp only [Bool.not_eq_eq_eq_not, Bool.not_true] at hnp
    simp [hnp]
  have h2 : List.filter
      (fun r => r.season == season && r.gameNumber == some n)
      [rowOfGame st.db season g] = [rowOfGame st.db season g] := by
    simp [List.filter, rowOfGame, hg]
  rw [h1, h2, List.nil_append]

theorem add_game_keysUnique (st : Store) (season : String) (g : Game) (n : String)
    (hc : st.conn = true) (hg : g.gameNumber = some n)
    (hu : keysUnique st.db.rows) :
    keysUnique (add_game st season g none).2.db.rows := by
  rw [add_game_db_spec st season g hc, dump_json_db]
  show keysUnique (dbAdd st.db season g).rows
  unfold keysUnique dbAdd
  rw [List.map_append]
  apply List.Nodup.append
  · exact ((List.filter_sublist _).map rowKey).nodup hu
  · simp
  · intro a ha hb
    obtain ⟨r, hr, hkey⟩ := List.mem_map.mp ha
    have hmem := List.mem_filter.mp hr
    have hnp := hmem.2
    simp only [List.map_cons, List.map_nil, List.mem_cons, List.not_mem_nil,
      or_false] at hb
    rw [hb] at hkey
    have hks : r.season = season := by
      have := congrArg Prod.fst hkey
      simpa [rowKey, rowOfGame] using this
    have hkn : r.gameNumber = g.gameNumber := by
      have := congrArg Prod.snd hkey
      simpa [rowKey, rowOfGame] using this
    rw [hg] at hkn
    rw [hg, sqlStrEq_some] at hnp
    simp [hks, hkn] at hnp

theorem dedupeGo_key_not_seen (rows : List Row) :
    ∀ (seen : List (String × Option String)) (r : Row),
      r ∈ dedupeGo rows seen → rowKey r ∉ seen := by
  induction rows with
  | nil =>
    intro seen r h
    simp [dedupeGo] at h
  | cons x xs ih =>
    intro seen r h
    unfold dedupeGo at h
    by_cases hx : rowKey x ∈ seen
    · rw [if_pos hx] at h
      exact ih seen r h
    · rw [if_neg hx] at h
      rcases List.mem_cons.mp h with h1 | h2
      · subst h1
        exact hx
      · intro hmem
        exact ih _ r h2 (List.mem_cons_of_mem _ hmem)

theorem dedupeGo_nodup (rows : List Row) :
    ∀ seen : List (String × Option String), ((dedupeGo rows seen).map rowKey).Nodup := by
  induction rows with
  | nil =>
    intro seen
    simp [dedupeGo]
  | cons x xs ih =>
    intro seen
    unfold dedupeGo
    by_cases hx : rowKey x ∈ seen
    · rw [if_pos hx]
      exact ih seen
    · rw [if_neg hx]
      rw [List.map_cons, List.nodup_cons]
      refine ⟨?_, ih _⟩
      intro hmem
      obtain ⟨r, hr, hkey⟩ := List.mem_map.mp hmem
      have hns := dedupeGo_key_not_seen xs _ r hr
      rw [hkey] at hns
      exact hns (List.mem_cons_self _ _)

theorem dedupeGo_mem (rows : List Row) :
    ∀ (seen : List (String × Option String)) (r : Row),
      r ∈ dedupeGo rows seen ↔
        (rowKey r ∉ seen ∧
          rows.find? (fun x => decide (rowKey x = rowKey r)) = some r) := by
  induction rows with
  | nil =>
    intro seen r
    simp [dedupeGo]
  | cons x xs ih =>
    intro seen r
    unfold dedupeGo
    by_cases hxr : rowKey x = rowKey r
    · have hfind : (x :: xs).find? (fun y => decide (rowKey y = rowKey r)) = some x :=
        List.find?_cons_of_pos _ (by simp [hxr])
      by_cases hx : rowKey x ∈ seen
      · rw [if_pos hx, ih, hfind]
        rw [hxr] at hx
        simp [hx]
      · rw [if_neg hx, hfind]
        constructor
        · intro h
          rcases List.mem_cons.mp h with h1 | h2
          · subst h1
            rw [← hxr]
            exact ⟨hx, rfl⟩
          · have hns := dedupeGo_key_not_seen xs _ r h2
            exact absurd (by rw [hxr]; exact List.mem_cons_self _ _) hns
        · intro ⟨_, hxr2⟩
          have : x = r := Option.some.inj hxr2
          subst this
          exact List.mem_cons_self _ _
    · have hfind : (x :: xs).find? (fun y => decide (rowKey y = rowKey r))
          = xs.find? (fun y => decide (rowKey y = rowKey r)) :=
        List.find?_cons_of_neg _ (by simp [hxr])
      rw [hfind]
      by_cases hx : rowKey x ∈ seen
      · rw [if_pos hx, ih]
      · rw [if_neg hx]
        constructor
        · intro h
          rcases List.mem_cons.mp h with h1 | h2
          · subst h1
            exact absurd rfl hxr
          · have := (ih _ r).mp h2
            refine ⟨?_, this.2⟩
            intro hmem
            exact this.1 (List.mem_cons_of_mem _ hmem)
        · intro ⟨hns, hfr⟩
          apply List.mem_cons_of_mem
          apply (ih _ r).mpr
          refine ⟨?_, hfr⟩
          intro hmem
          rcases List.mem_cons.mp hmem with h1 | h2
          · exact hxr h1.symm
          · exact hns h2

/-- Claim C1: the store never keeps two rows with one
`(season, gameNumber)` key.  With a connection, `add_game` on a record
carrying a game number never raises, leaves exactly one row with that
key (the freshly inserted one), and preserves key-uniqueness of the
table; `_dedupe_db`'s scan keeps precisely the first row encountered
for each key, so its output has pairwise-distinct keys; and in
JSON-only mode the season file afterwards holds exactly the added
record, so no duplicate key can appear there either. -/
theorem C1_unique_keys :
    (∀ (st : Store) (season : String) (g : Game) (n : String),
        st.conn = true → g.gameNumber = some n →
        (add_game st season g none).1 = .ok () ∧
        ((add_game st season g none).2.db.rows.filter
            (fun r => r.season == season && r.gameNumber == some n))
          = [rowOfGame st.db season g] ∧
        (keysUnique st.db.rows →
          keysUnique (add_game st season g none).2.db.rows)) ∧
    (∀ rows : List Row,
        keysUnique (dedupeGo rows []) ∧
        (∀ r : Row, r ∈ dedupeGo rows [] ↔
          rows.find? (fun x => decide (rowKey x = rowKey r)) = some r)) ∧
    (∀ (st : Store) (season : String) (g : Game),
        st.conn = false →
        (add_game st season g none).2.jsonFiles.lookup season = some [g]) := by
  refine ⟨?_, ?_, ?_⟩
  · intro st season g n hc hg
    refine ⟨?_, add_game_filter_key st season g n hc hg,
      add_game_keysUnique st season g n hc hg⟩
    rw [add_game_db_spec st season g hc]
  · intro rows
    refine ⟨dedupeGo_nodup rows [], ?_⟩
    intro r
    rw [dedupeGo_mem rows [] r]
    simp
  · intro st season g h
    have hload : load_games st season none
        = ([], { st with db_error := some (some "no database connection") }) := by
      simp [load_games, h]
    simp [add_game, h, hload, save_games, dump_all, setFile_lookup_self]

/-- Witness for `C1_unique_keys`: replacing the existing key "1" in a
one-row connected store succeeds and keeps keys unique; deduplicating a
two-copy row list keeps unique keys; a JSON-only add leaves a
single-record file. -/
theorem C1_witness :
    (add_game dbStoreStale "2025/2026" sampleGame none).1 = .ok () ∧
    keysUnique (add_game dbStoreStale "2025/2026" sampleGame none).2.db.rows ∧
    keysUnique (dedupeGo [sampleRow, sampleRow] []) ∧
    (add_game jsonStoreWithGame "2025/2026" sampleGame none).2.jsonFiles.lookup "2025/2026"
      = some [sampleGame] :=
  ⟨(C1_unique_keys.1 dbStoreStale "2025/2026" sampleGame "1" rfl rfl).1,
   (C1_unique_keys.1 dbStoreStale "2025/2026" sampleGame "1" rfl rfl).2.2
     (by unfold keysUnique; decide),
   (C1_unique_keys.2.1 [sampleRow, sampleRow]).1,
   C1_unique_keys.2.2 jsonStoreWithGame "2025/2026" sampleGame rfl⟩

theorem rowsFor_dbDeleteSeason_ne (db : DBState) (season s' : String) (h : s' ≠ season) :
    rowsFor (dbDeleteSeason db season) s' = rowsFor db s' := by
  unfold rowsFor dbDeleteSeason
  rw [List.filter_filter]
  apply List.filter_congr
  intro r _
  by_cases hr : r.season = s'
  · have h1 : (r.season == s') = true := by simp [hr]
    have h2 : (r.season == season) = false := by simp [hr, h]
    simp [h1, h2]
  · have h1 : (r.season == s') = false := by simp [hr]
    simp [h1]

theorem rowsFor_dbDeleteSeason_self (db : DBState) (season : String) :
    rowsFor (dbDeleteSeason db season) season = [] := by
  unfold rowsFor dbDeleteSeason
  rw [List.filter_filter]
  apply List.filter_eq_nil_iff.mpr
  intro r _
  by_cases hr : r.season = season <;> simp [hr]

theorem rowsFor_dbAdd_ne (db : DBState) (season : String) (g : Game) (s' : String)
    (h : s' ≠ season) :
    rowsFor (dbAdd db season g) s' = rowsFor db s' := by
  unfold rowsFor dbAdd dbDeleteKey
  rw [List.filter_append, List.filter_filter]
  have h2 : List.filter (fun r => r.season == s') [rowOfGame db season g] = [] := by
    have hss : (season == s') = false := by simp [Ne.symm h]
    simp [List.filter, rowOfGame, hss]
  rw [h2, List.append_nil]
  apply List.filter_congr
  intro r _
  by_cases hr : r.season = s'
  · have h1 : (r.season == s') = true := by simp [hr]
    have h3 : (r.season == season) = false := by simp [hr, h]
    simp [h1, h3]
  · have h1 : (r.season == s') = false := by simp [hr]
    simp [h1]

theorem rowsFor_dbAdd_ne_nil (db : DBState) (season : String) (g : Game) :
    rowsFor (dbAdd db season g) season ≠ [] := by
  unfold rowsFor dbAdd
  rw [List.filter_append]
  apply List.append_ne_nil_of_right_ne_nil
  simp [List.filter, rowOfGame]

theorem setFile_keys_of_mem (files : List (String × List Game)) (s : String)
    (gs : List Game) (h : s ∈ files.map Prod.fst) :
    (setFile files s gs).map Prod.fst = files.map Prod.fst := by
  induction files with
  | nil => simp at h
  | cons p rest ih =>
    obtain ⟨a, b⟩ := p
    by_cases ha : a = s
    · subst ha
      simp [setFile]
    · have hb : (a == s) = false := by simp [ha]
      have hmem : s ∈ rest.map Prod.fst := by
        rcases List.mem_cons.mp h with h1 | h2
        · exact absurd h1.symm ha
        · exact h2
      simp [setFile, hb, ih hmem]

theorem lookup_of_mem_keys (files : List (String × List Game)) (s : String)
    (h : s ∈ files.map Prod.fst) : ∃ c, files.lookup s = some c := by
  induction files with
  | nil => simp at h
  | cons p rest ih =>
    obtain ⟨a, b⟩ := p
    by_cases hs : s = a
    · subst hs
      exact ⟨b, by simp [List.lookup]⟩
    · have hb : (s == a) = false := by simp [hs]
      have hmem : s ∈ rest.map Prod.fst := by
        rcases List.mem_cons.mp h with h1 | h2
        · exact absurd h1 hs
        · exact h2
      obtain ⟨c, hc⟩ := ih hmem
      exact ⟨c, by simp [List.lookup, hb, hc]⟩

theorem addStep_db (st : Store) (season : String) (g : Game) (h : st.conn = true) :
    ((add_game st season g none).2).db = dbAdd st.db season g := by
  rw [add_game_db_spec st season g h, dump_json_db]

theorem addStep_jsonFiles (st : Store) (season : String) (g : Game) (h : st.conn = true) :
    ((add_game st season g none).2).jsonFiles
      = setFile st.jsonFiles season ((rowsFor (dbAdd st.db season g) season).map row_to_game) := by
  rw [add_game_db_spec st season g h, dump_json_jsonFiles]

theorem foldl_addStep_rowsFor_ne (season s' : String) (h : s' ≠ season)
    (games : List Game) (σ : Store) (hc : σ.conn = true) :
    rowsFor ((games.foldl (fun s g => (add_game s season g none).2) σ).db) s'
      = rowsFor σ.db s' := by
  induction games generalizing σ with
  | nil => rfl
  | cons g gs ih =>
    rw [List.foldl_cons, ih _ (by rw [add_game_conn]; exact hc),
      addStep_db σ season g hc, rowsFor_dbAdd_ne _ _ _ _ h]

theorem foldl_addStep_lookup_ne (season s' : String) (h : s' ≠ season)
    (games : List Game) (σ : Store) (hc : σ.conn = true) :
    ((games.foldl (fun s g => (add_game s season g none).2) σ).jsonFiles).lookup s'
      = σ.jsonFiles.lookup s' := by
  induction games generalizing σ with
  | nil => rfl
  | cons g gs ih =>
    rw [List.foldl_cons, ih _ (by rw [add_game_conn]; exact hc),
      addStep_jsonFiles σ season g hc, setFile_lookup_ne _ _ _ _ h]

theorem foldl_addStep_keys (season : String) (games : List Game) (σ : Store)
    (hc : σ.conn = true) (hmem : season ∈ σ.jsonFiles.map Prod.fst) :
    ((games.foldl (fun s g => (add_game s season g none).2) σ).jsonFiles).map Prod.fst
      = σ.jsonFiles.map Prod.fst := by
  induction games generalizing σ with
  | nil => rfl
  | cons g gs ih =>
    rw [List.foldl_cons]
    have hkeys1 : ((add_game σ season g none).2.jsonFiles).map Prod.fst
        = σ.jsonFiles.map Prod.fst := by
      rw [addStep_jsonFiles σ season g hc, setFile_keys_of_mem _ _ _ hmem]
    rw [ih _ (by rw [add_game_conn]; exact hc) (by rw [hkeys1]; exact hmem), hkeys1]

theorem foldl_addStep_rowsFor_ne_nil (season : String) (games : List Game) (σ : Store)
    (hc : σ.conn = true) (hne : games ≠ []) :
    rowsFor ((games.foldl (fun s g => (add_game s season g none).2) σ).db) season ≠ [] := by
  induction games generalizing σ with
  | nil => exact absurd rfl hne
  | cons g gs ih =>
    rw [List.foldl_cons]
    by_cases hgs : gs = []
    · subst hgs
      rw [List.foldl_nil, addStep_db σ season g hc]
      exact rowsFor_dbAdd_ne_nil σ.db season g
    · exact ih _ (by rw [add_game_conn]; exact hc) hgs

theorem markSeason_db (season : String) (σ : Store) : (markSeason season σ).db = σ.db := rfl

theorem markSeason_jsonFiles (season : String) (σ : Store) :
    (markSeason season σ).jsonFiles = σ.jsonFiles := rfl

theorem markSeason_markers (season : String) (σ : Store) :
    (markSeason season σ).markers = insertMarker season σ.markers := rfl

theorem insertMarker_self_mem (season : String) (markers : List String) :
    season ∈ insertMarker season markers := by
  unfold insertMarker
  by_cases h : season ∈ markers
  · rw [if_pos h]
    exact h
  · rw [if_neg h]
    simp

theorem insertMarker_mono (season s : String) (markers : List String) (h : s ∈ markers) :
    s ∈ insertMarker season markers := by
  unfold insertMarker
  by_cases hm : season ∈ markers
  · rw [if_pos hm]
    exact h
  · rw [if_neg hm]
    simp [h]

theorem insertMarker_of_mem (season : String) (markers : List String)
    (h : season ∈ markers) : insertMarker season markers = markers := by
  unfold insertMarker
  rw [if_pos h]

/-- The skip test of the migration loop, with a live connection, is
"marked and the table still holds rows for the season". -/
theorem processSeason_skip (σ : Store) (season : String) (hc : σ.conn = true)
    (hm : season ∈ σ.markers) (hr : rowsFor σ.db season ≠ []) :
    processSeason σ season = σ := by
  have h1 : σ.markers.contains season = true := by simpa using hm
  have h2 : decide (0 < seasonCount σ.db season) = true := by
    simpa [seasonCount, List.length_pos] using hr
  unfold processSeason
  rw [if_pos]
  rw [h1, h2]
  simp

theorem processSeason_not_skip (σ : Store) (season : String) (hc : σ.conn = true)
    (hr : rowsFor σ.db season = []) :
    processSeason σ season = importSeasonFile σ season := by
  have h2 : decide (0 < seasonCount σ.db season) = false := by
    simp [seasonCount, hr]
  unfold processSeason
  rw [if_neg]
  rw [h2, hc]
  simp

theorem importSeasonFile_rowsFor_ne (σ : Store) (season s' : String) (hc : σ.conn = true)
    (h : s' ≠ season) :
    rowsFor (importSeasonFile σ season).db s' = rowsFor σ.db s' := by
  unfold importSeasonFile
  rw [markSeason_db,
    foldl_addStep_rowsFor_ne season s' h _ { σ with db := dbDeleteSeason σ.db season } hc]
  exact rowsFor_dbDeleteSeason_ne σ.db season s' h

theorem importSeasonFile_lookup_ne (σ : Store) (season s' : String) (hc : σ.conn = true)
    (h : s' ≠ season) :
    (importSeasonFile σ season).jsonFiles.lookup s' = σ.jsonFiles.lookup s' := by
  unfold importSeasonFile
  rw [markSeason_jsonFiles,
    foldl_addStep_lookup_ne season s' h _ { σ with db := dbDeleteSeason σ.db season } hc]

theorem importSeasonFile_markers_mono (σ : Store) (season s : String)
    (h : s ∈ σ.markers) : s ∈ (importSeasonFile σ season).markers := by
  unfold importSeasonFile
  rw [markSeason_markers]
  apply insertMarker_mono
  rw [foldl_addStep_markers]
  exact h

theorem importSeasonFile_keys (σ : Store) (season : String) (hc : σ.conn = true)
    (hmem : season ∈ σ.jsonFiles.map Prod.fst) :
    (importSeasonFile σ season).jsonFiles.map Prod.fst = σ.jsonFiles.map Prod.fst := by
  unfold importSeasonFile
  rw [markSeason_jsonFiles,
    foldl_addStep_keys season _ { σ with db := dbDeleteSeason σ.db season } hc hmem]

theorem processSeason_rowsFor_ne (σ : Store) (season s' : String) (hc : σ.conn = true)
    (h : s' ≠ season) :
    rowsFor (processSeason σ season).db s' = rowsFor σ.db s' := by
  unfold processSeason
  split
  · rfl
  · exact importSeasonFile_rowsFor_ne σ season s' hc h

theorem processSeason_lookup_ne (σ : Store) (season s' : String) (hc : σ.conn = true)
    (h : s' ≠ season) :
    (processSeason σ season).jsonFiles.lookup s' = σ.jsonFiles.lookup s' := by
  unfold processSeason
  split
  · rfl
  · exact importSeasonFile_lookup_ne σ season s' hc h

theorem processSeason_markers_mono (σ : Store) (season s : String) (h : s ∈ σ.markers) :
    s ∈ (processSeason σ season).markers := by
  unfold processSeason
  split
  · exact h
  · exact importSeasonFile_markers_mono σ season s h

theorem processSeason_keys (σ : Store) (season : String) (hc : σ.conn = true)
    (hmem : season ∈ σ.jsonFiles.map Prod.fst) :
    (processSeason σ season).jsonFiles.map Prod.fst = σ.jsonFiles.map Prod.fst := by
  unfold processSeason
  split
  · rfl
  · exact importSeasonFile_keys σ season hc hmem

theorem processSeason_estab (σ : Store) (season : String) (hc : σ.conn = true)
    (hmem : season ∈ σ.jsonFiles.map Prod.fst) :
    seasonImported season (processSeason σ season) := by
  unfold processSeason
  split
  case isTrue hcond =>
    rw [hc] at hcond
    simp only [Bool.not_true, Bool.false_or, Bool.and_eq_true,
      decide_eq_true_eq] at hcond
    obtain ⟨hm, hcount⟩ := hcond
    constructor
    · simpa using hm
    · intro hr
      exfalso
      unfold seasonCount at hcount
      rw [hr] at hcount
      simp at hcount
  case isFalse hcond =>
    constructor
    · unfold importSeasonFile
      rw [markSeason_markers]
      exact insertMarker_self_mem _ _
    · intro hr
      obtain ⟨c, hlook⟩ := lookup_of_mem_keys σ.jsonFiles season hmem
      cases c with
      | nil =>
        unfold importSeasonFile
        rw [markSeason_jsonFiles, hlook]
        simp only [Option.getD_some, List.foldl_nil]
        exact hlook
      | cons g gs =>
        exfalso
        have hr' : rowsFor ((((σ.jsonFiles.lookup season).getD []).foldl
            (fun s g => (add_game s season g none).2)
            { σ with db := dbDeleteSeason σ.db season }).db) season = [] := hr
        rw [hlook] at hr'
        simp only [Option.getD_some] at hr'
        exact foldl_addStep_rowsFor_ne_nil season (g :: gs)
          { σ with db := dbDeleteSeason σ.db season } hc (by simp) hr'

theorem processSeason_id (σ : Store) (season : String) (hc : σ.conn = true)
    (hP : seasonImported season σ) : processSeason σ season = σ := by
  obtain ⟨hm, himpl⟩ := hP
  by_cases hr : rowsFor σ.db season = []
  · have hlook := himpl hr
    have hdb : dbDeleteSeason σ.db season = σ.db := by
      unfold rowsFor at hr
      have hall := List.filter_eq_nil_iff.mp hr
      unfold dbDeleteSeason
      have hself : σ.db.rows.filter (fun r => !(r.season == season)) = σ.db.rows := by
        apply List.filter_eq_self.mpr
        intro r hrr
        simp [hall r hrr]
      rw [hself]
    rw [processSeason_not_skip σ season hc hr]
    unfold importSeasonFile
    rw [hlook]
    simp only [Option.getD_some, List.foldl_nil]
    rw [show dbDeleteSeason σ.db season = σ.db from hdb]
    show markSeason season σ = σ
    unfold markSeason
    rw [insertMarker_of_mem season σ.markers hm]
  · exact processSeason_skip σ season hc hm hr

theorem processSeason_preserves (σ : Store) (season s : String) (hc : σ.conn = true)
    (hkey : season ∈ σ.jsonFiles.map Prod.fst) (hP : seasonImported s σ) :
    seasonImported s (processSeason σ season) := by
  by_cases hss : s = season
  · subst hss
    exact processSeason_estab σ s hc hkey
  · obtain ⟨hm, himpl⟩ := hP
    constructor
    · exact processSeason_markers_mono σ season s hm
    · intro hr
      rw [processSeason_rowsFor_ne σ season s hc hss] at hr
      rw [processSeason_lookup_ne σ season s hc hss]
      exact himpl hr

theorem foldl_processSeason_post (todo : List String) (σ : Store) (hc : σ.conn = true)
    (hkeys : ∀ s ∈ todo, s ∈ σ.jsonFiles.map Prod.fst) :
    (todo.foldl processSeason σ).jsonFiles.map Prod.fst = σ.jsonFiles.map Prod.fst ∧
    (∀ s ∈ todo, seasonImported s (todo.foldl processSeason σ)) ∧
    (∀ s, seasonImported s σ → seasonImported s (todo.foldl processSeason σ)) := by
  induction todo generalizing σ with
  | nil => exact ⟨rfl, by simp, fun s h => h⟩
  | cons t rest ih =>
    have htk : t ∈ σ.jsonFiles.map Prod.fst := hkeys t (by simp)
    have hconn1 : (processSeason σ t).conn = true := by
      rw [processSeason_conn]
      exact hc
    have hkeys1 : (processSeason σ t).jsonFiles.map Prod.fst = σ.jsonFiles.map Prod.fst :=
      processSeason_keys σ t hc htk
    have hkrest : ∀ s ∈ rest, s ∈ (processSeason σ t).jsonFiles.map Prod.fst := by
      intro s hs
      rw [hkeys1]
      exact hkeys s (List.mem_cons_of_mem _ hs)
    obtain ⟨ik, iall, ipres⟩ := ih (processSeason σ t) hconn1 hkrest
    rw [List.foldl_cons]
    refine ⟨by rw [ik, hkeys1], ?_, ?_⟩
    · intro s hs
      rcases List.mem_cons.mp hs with h1 | h2
      · subst h1
        exact ipres s (processSeason_estab σ s hc htk)
      · exact iall s h2
    · intro s hP
      exact ipres s (processSeason_preserves σ t s hc htk hP)

theorem foldl_processSeason_id (todo : List String) (σ : Store) (hc : σ.conn = true)
    (hP : ∀ s ∈ todo, seasonImported s σ) : todo.foldl processSeason σ = σ := by
  induction todo with
  | nil => rfl
  | cons t rest ih =>
    rw [List.foldl_cons, processSeason_id σ t hc (hP t (by simp))]
    exact ih (fun s hs => hP s (List.mem_cons_of_mem _ hs))

theorem dump_all_idem (σ : Store) : dump_all (dump_all σ) = dump_all σ := by
  cases hb : σ.conn <;> simp [dump_all, hb]

theorem seasonImported_dump_all (s : String) (σ : Store) (h : seasonImported s σ) :
    seasonImported s (dump_all σ) := by
  obtain ⟨hm, hi⟩ := h
  unfold seasonImported
  rw [dump_all_markers, dump_all_db, dump_all_jsonFiles]
  exact ⟨hm, hi⟩

theorem import_idem (st : Store) (h : st.conn = true) :
    import_json_to_db (import_json_to_db st) = import_json_to_db st := by
  obtain ⟨hk, hall, _⟩ :=
    foldl_processSeason_post (st.jsonFiles.map Prod.fst) st h (fun s hs => hs)
  have hc1 : ((st.jsonFiles.map Prod.fst).foldl processSeason st).conn = true := by
    rw [foldl_processSeason_conn]
    exact h
  simp only [import_json_to_db]
  have hkeys2 : (dump_all ((st.jsonFiles.map Prod.fst).foldl processSeason st)).jsonFiles.map
      Prod.fst = st.jsonFiles.map Prod.fst := by
    rw [dump_all_jsonFiles, hk]
  have hP2 : ∀ s ∈ (dump_all ((st.jsonFiles.map Prod.fst).foldl processSeason
      st)).jsonFiles.map Prod.fst,
      seasonImported s (dump_all ((st.jsonFiles.map Prod.fst).foldl processSeason st)) := by
    intro s hs
    rw [hkeys2] at hs
    exact seasonImported_dump_all s _ (hall s hs)
  have hcd : (dump_all ((st.jsonFiles.map Prod.fst).foldl processSeason st)).conn = true := by
    rw [dump_all_conn]
    exact hc1
  rw [foldl_processSeason_id _ _ hcd hP2, dump_all_idem]

/-- Claim C5: migration is idempotent per season.  A marked season whose
table still holds at least one row is skipped untouched; a marked season
whose table is empty is re-imported (its file's records land back in the
table); and running `import_json_to_db` a second time is the identity —
in particular every season's database row count and content after the
second run equal the first run's result. -/
theorem C5_migration_idempotent :
    (∀ st : Store, st.conn = true →
      import_json_to_db (import_json_to_db st) = import_json_to_db st) ∧
    (∀ (σ : Store) (season : String), σ.conn = true → season ∈ σ.markers →
      rowsFor σ.db season ≠ [] → processSeason σ season = σ) ∧
    (∀ (σ : Store) (season : String), σ.conn = true → season ∈ σ.markers →
      rowsFor σ.db season = [] → (σ.jsonFiles.lookup season).getD [] ≠ [] →
      rowsFor (processSeason σ season).db season ≠ []) := by
  refine ⟨fun st h => import_idem st h,
    fun σ season hc hm hr => processSeason_skip σ season hc hm hr, ?_⟩
  intro σ season hc hm hr hne
  rw [processSeason_not_skip σ season hc hr]
  unfold importSeasonFile
  rw [markSeason_db]
  exact foldl_addStep_rowsFor_ne_nil season _ _ hc hne

/-- Witness for `C5_migration_idempotent`: a second migration pass over
a one-row connected store changes nothing; its marked, populated season
is skipped; and a marked season with zero rows but a non-empty file is
re-populated. -/
theorem C5_witness :
    (import_json_to_db (import_json_to_db dbStoreStale) = import_json_to_db dbStoreStale) ∧
    (processSeason dbStoreStale "2025/2026" = dbStoreStale) ∧
    (rowsFor (processSeason markedEmptyStore "2025/2026").db "2025/2026" ≠ []) :=
  ⟨C5_migration_idempotent.1 dbStoreStale rfl,
   C5_migration_idempotent.2.1 dbStoreStale "2025/2026" rfl (by decide) (by decide),
   C5_migration_idempotent.2.2 markedEmptyStore "2025/2026" rfl (by decide) (by decide)
     (by decide)⟩
